import Mathlib

/-!
Shallow embedding of the `blogicum` blog application (apps `blog` and `core`):
the data model from `blog/models.py` and `core/models.py`, the form field
exclusions from `blog/forms.py`, and the query / mutation operations from
`blog/views.py`.  Timestamps are modelled as natural numbers; the record store
is a quadruple of lists; Django querysets become list filters, `order_by`
becomes `List.insertionSort`, `annotate(Count(..))` becomes a per-row live
count, and `get_object_or_404` becomes `Option`.
-/

namespace Blogicum

/-- A user record (`django.contrib.auth` user: primary key and username are
the only attributes the embedded views read). -/
structure User where
  pk : Nat
  username : String
deriving DecidableEq, Repr

/-- `blog.models.Category`: `title`, `slug` (unique), plus `is_published` and
`created_at` inherited from `core.models.PublishedAndCreatedModel`. -/
structure Category where
  pk : Nat
  title : String
  slug : String
  is_published : Bool
  created_at : Nat
deriving DecidableEq, Repr

/-- `blog.models.Post`: `title`, `text`, `pub_date`, foreign keys `author`
(required), `location` and `category` (nullable), `image`, the stored
denormalized counter `comment_count` (default 0), and the inherited
`is_published` (default `True`) and `created_at`. -/
structure Post where
  pk : Nat
  title : String
  text : String
  pub_date : Nat
  authorPk : Nat
  locationPk : Option Nat
  categoryPk : Option Nat
  image : String
  is_published : Bool
  created_at : Nat
  comment_count : Nat
deriving DecidableEq, Repr

/-- `blog.models.Comment`: `text`, foreign keys `post` and `author`,
`created_at` (auto, set once).  The commented-out `save` override (the
disabled `comment_count` auto-increment) is deliberately absent, as in the
source. -/
structure Comment where
  pk : Nat
  text : String
  postPk : Nat
  created_at : Nat
  authorPk : Nat
deriving DecidableEq, Repr

/-- The backing record store for the four entity tables the views touch
(`Location` rows are never read by any embedded operation, only the nullable
`location_id` column on `Post`). -/
structure Store where
  users : List User
  categories : List Category
  posts : List Post
  comments : List Comment
deriving DecidableEq, Repr

/-- Well-formedness of a store: primary keys are unique per table and
`Category.slug` is unique (`slug = models.SlugField(unique=True, ...)`). -/
def Store.WF (s : Store) : Prop :=
  (s.users.map fun u => u.pk).Nodup ∧
  (s.categories.map fun c => c.pk).Nodup ∧
  (s.categories.map fun c => c.slug).Nodup ∧
  (s.posts.map fun p => p.pk).Nodup ∧
  (s.comments.map fun c => c.pk).Nodup

instance (s : Store) : Decidable s.WF := by
  unfold Store.WF; infer_instance

/-- Foreign-key dereference of `post.category`. -/
def findCategory (s : Store) (pk : Nat) : Option Category :=
  s.categories.find? fun c => c.pk == pk

/-- The Django join condition `category__is_published=True` on a `Post`
queryset: the post's category reference is non-null, resolves, and the
category is published. -/
def categoryPublished (s : Store) (p : Post) : Bool :=
  match p.categoryPk with
  | none => false
  | some k =>
    match findCategory s k with
    | none => false
    | some c => c.is_published

/-- The Django join `category__slug`: the slug of the post's category, when
the reference resolves. -/
def postCategorySlug (s : Store) (p : Post) : Option String :=
  match p.categoryPk with
  | none => none
  | some k =>
    match findCategory s k with
    | none => none
    | some c => some c.slug

/-- The Django join `author__username`: the username of the post's author,
when the reference resolves. -/
def authorUsername (s : Store) (p : Post) : Option String :=
  match s.users.find? fun u => u.pk == p.authorPk with
  | none => none
  | some u => some u.username

/-- The row filter of `PostListView.queryset` (`blog/views.py`):
`is_published=True, pub_date__lt=timezone.now(), category__is_published=True`.
Note the strict `pub_date__lt`. -/
def feedFilter (s : Store) (now : Nat) (p : Post) : Bool :=
  p.is_published && decide (p.pub_date < now) && categoryPublished s p

/-- The row filter of `PublishedQueryset.published` (`blog/models.py`), which
uses the inclusive `pub_date__lte`.  No view in `blog/views.py` calls it. -/
def publishedQuerysetFilter (s : Store) (now : Nat) (p : Post) : Bool :=
  p.is_published && decide (p.pub_date ≤ now) && categoryPublished s p

/-- Modelled from the spec: the `visible(post)` predicate of spec section 4.1,
`post.is_published AND post.pub_date <= now() AND post.category.is_published`,
with the inclusive boundary the spec prescribes.  Used only to compare the
spec's predicate with the one the views implement. -/
def visibleSpec (s : Store) (now : Nat) (p : Post) : Bool :=
  p.is_published && decide (p.pub_date ≤ now) && categoryPublished s p

/-- The ordering `'-pub_date'` used by the three list views: `a` precedes `b`
when `a.pub_date` is at least `b.pub_date`. -/
def pubDateDesc (a b : Post) : Prop := b.pub_date ≤ a.pub_date

instance : DecidableRel pubDateDesc := fun a b => Nat.decLe b.pub_date a.pub_date

instance : IsTotal Post pubDateDesc := ⟨fun a b => Nat.le_total b.pub_date a.pub_date⟩

instance : IsTrans Post pubDateDesc :=
  ⟨fun _ _ _ hab hbc => le_trans hbc hab⟩

/-- The `Comment.Meta.ordering = ('created_at',)` ascending ordering. -/
def createdAtAsc (a b : Comment) : Prop := a.created_at ≤ b.created_at

instance : DecidableRel createdAtAsc := fun a b => Nat.decLe a.created_at b.created_at

instance : IsTotal Comment createdAtAsc := ⟨fun a b => Nat.le_total a.created_at b.created_at⟩

instance : IsTrans Comment createdAtAsc :=
  ⟨fun _ _ _ hab hbc => le_trans hab hbc⟩

/-- The value of `annotate(comment_count=Count('comments'))` for one row: the
live number of `Comment` records whose `post` foreign key is this post. -/
def liveCommentCount (s : Store) (postPk : Nat) : Nat :=
  (s.comments.filter fun c => c.postPk == postPk).length

/-- One row of an annotated post queryset: the post together with its
`Count('comments')` annotation value as displayed. -/
structure AnnotatedPost where
  post : Post
  displayedCount : Nat
deriving DecidableEq, Repr

/-- Annotate each post of a queryset with its live comment count. -/
def annotateCounts (s : Store) (l : List Post) : List AnnotatedPost :=
  l.map fun p => ⟨p, liveCommentCount s p.pk⟩

/-- `PostListView` (`blog/views.py`), the home feed: filter by
`is_published=True, pub_date__lt=now, category__is_published=True`, order by
`'-pub_date'`, annotate with `Count('comments')`. -/
def listHome (s : Store) (now : Nat) : List AnnotatedPost :=
  annotateCounts s ((s.posts.filter (feedFilter s now)).insertionSort pubDateDesc)

/-- `CategoryDetailView.get_queryset` (`blog/views.py`): first
`get_object_or_404(Category, slug=slug, is_published=True)` (`none` models the
404), then the posts filtered by `is_published=True, pub_date__lt=now,
category__slug=slug`, ordered by `'-pub_date'`, annotated with
`Count('comments')`. -/
def listCategory (s : Store) (slug : String) (now : Nat) :
    Option (List AnnotatedPost) :=
  match s.categories.find? fun c => c.slug == slug && c.is_published with
  | none => none
  | some _ =>
    some (annotateCounts s
      ((s.posts.filter fun p =>
          p.is_published && decide (p.pub_date < now)
            && postCategorySlug s p == some slug).insertionSort pubDateDesc))

/-- `UserListView.get_queryset` (`blog/views.py`), the profile feed: when the
viewer's username equals the requested slug, all posts with
`author__username=slug` unfiltered; otherwise the posts filtered by
`is_published=True, pub_date__lt=now, author__username=slug` (note: no
`category__is_published` condition in either branch).  Both branches order by
`'-pub_date'` and annotate with `Count('comments')`. -/
def listProfile (s : Store) (viewerUsername slug : String) (now : Nat) :
    List AnnotatedPost :=
  if viewerUsername == slug then
    annotateCounts s
      ((s.posts.filter fun p =>
          authorUsername s p == some slug).insertionSort pubDateDesc)
  else
    annotateCounts s
      ((s.posts.filter fun p =>
          p.is_published && decide (p.pub_date < now)
            && authorUsername s p == some slug).insertionSort pubDateDesc)

/-- `PostDetailView` (`blog/views.py`): fetch one `Post` by primary key,
`none` models the 404.  No visibility condition and no viewer argument: the
lookup is by `pk` alone. -/
def getPost (s : Store) (id : Nat) : Option Post :=
  s.posts.find? fun p => p.pk == id

/-- The `comments` collection of `PostDetailView.get_context_data`:
`self.object.comments` under the default `Comment.Meta.ordering =
('created_at',)`. -/
def postComments (s : Store) (postPk : Nat) : List Comment :=
  (s.comments.filter fun c => c.postPk == postPk).insertionSort createdAtAsc

/-- Outcome of a `dispatch` call on a mutation view: 404, a redirect to
`blog:post_detail` with the given positional `pk` argument, or fall-through
to `super().dispatch` (the actual write). -/
inductive DispatchResult where
  | notFound
  | redirectToPostDetail (pk : Nat)
  | proceed
deriving DecidableEq, Repr

/-- `PostUpdateDeleteMixin.dispatch` (`blog/views.py`):
`get_object_or_404(Post, pk=kwargs['pk'])`, then if `instance.author !=
request.user` redirect to `blog:post_detail` with `self.get_object().pk`
(the post's own pk), else proceed. -/
def postUpdateDeleteDispatch (s : Store) (viewerPk pk : Nat) : DispatchResult :=
  match s.posts.find? fun p => p.pk == pk with
  | none => .notFound
  | some inst =>
    if inst.authorPk != viewerPk then .redirectToPostDetail inst.pk
    else .proceed

/-- `CommentUpdateDeleteMixin.dispatch` (`blog/views.py`):
`get_object_or_404(Comment, pk=kwargs['pk'])`, then if `instance.author !=
request.user` redirect to `blog:post_detail` with `self.get_object().pk` —
the pk of the **comment** object itself, as written in the source — else
proceed. -/
def commentUpdateDeleteDispatch (s : Store) (viewerPk pk : Nat) : DispatchResult :=
  match s.comments.find? fun c => c.pk == pk with
  | none => .notFound
  | some inst =>
    if inst.authorPk != viewerPk then .redirectToPostDetail inst.pk
    else .proceed

/-- The editable fields of `PostForm` (`blog/forms.py`): every `Post` model
field except the excluded `author`, `comment_count` and `is_published` (and
the primary key and the automatic `created_at`). -/
structure PostFormFields where
  title : String
  text : String
  pub_date : Nat
  locationPk : Option Nat
  categoryPk : Option Nat
  image : String
deriving DecidableEq, Repr

/-- Apply a bound `PostForm` to an existing post (`PostUpdateView`): only the
form's fields change; `author`, `comment_count` and `is_published` are not
part of the form and keep their stored values. -/
def applyPostForm (p : Post) (f : PostFormFields) : Post :=
  { p with
    title := f.title, text := f.text, pub_date := f.pub_date,
    locationPk := f.locationPk, categoryPk := f.categoryPk, image := f.image }

/-- The fresh `Post` produced by `PostCreateView.form_valid`
(`blog/views.py`): the form's fields, `author` forced to `request.user`, and
the model defaults `is_published=True` and `comment_count=0` for the excluded
fields. -/
def newPostFromForm (viewerPk newPk now : Nat) (f : PostFormFields) : Post :=
  { pk := newPk, title := f.title, text := f.text, pub_date := f.pub_date,
    authorPk := viewerPk, locationPk := f.locationPk,
    categoryPk := f.categoryPk, image := f.image,
    is_published := true, created_at := now, comment_count := 0 }

/-- `PostCreateView` (`blog/views.py`): insert the new post built from the
submitted form, with the author forced to the authenticated viewer. -/
def createPost (s : Store) (viewerPk newPk now : Nat) (f : PostFormFields) :
    Store :=
  { s with posts := s.posts ++ [newPostFromForm viewerPk newPk now f] }

/-- `PostUpdateView` (`blog/views.py`): run the mixin's dispatch; only on
`proceed` is the post row rewritten through the form. -/
def updatePost (s : Store) (viewerPk pk : Nat) (f : PostFormFields) :
    DispatchResult × Store :=
  match postUpdateDeleteDispatch s viewerPk pk with
  | .proceed =>
    (.proceed,
      { s with posts := s.posts.map fun p =>
          if p.pk == pk then applyPostForm p f else p })
  | r => (r, s)

/-- `PostDeleteView` (`blog/views.py`): run the mixin's dispatch; only on
`proceed` is the post row deleted (its comments cascade, per
`Comment.post`'s `on_delete=CASCADE`). -/
def deletePost (s : Store) (viewerPk pk : Nat) : DispatchResult × Store :=
  match postUpdateDeleteDispatch s viewerPk pk with
  | .proceed =>
    (.proceed,
      { s with posts := s.posts.filter fun p => p.pk != pk,
               comments := s.comments.filter fun c => c.postPk != pk })
  | r => (r, s)

/-- `CommentUpdateView` (`blog/views.py`): run the comment mixin's dispatch;
only on `proceed` is the comment's `text` (the sole `CommentForm` field)
rewritten. -/
def updateComment (s : Store) (viewerPk pk : Nat) (newText : String) :
    DispatchResult × Store :=
  match commentUpdateDeleteDispatch s viewerPk pk with
  | .proceed =>
    (.proceed,
      { s with comments := s.comments.map fun c =>
          if c.pk == pk then { c with text := newText } else c })
  | r => (r, s)

/-- `CommentDeleteView` (`blog/views.py`): run the comment mixin's dispatch;
only on `proceed` is the comment row deleted. -/
def deleteComment (s : Store) (viewerPk pk : Nat) : DispatchResult × Store :=
  match commentUpdateDeleteDispatch s viewerPk pk with
  | .proceed =>
    (.proceed, { s with comments := s.comments.filter fun c => c.pk != pk })
  | r => (r, s)

/-- One comment-creation request: the data `CommentCreateView` consumes
(authenticated viewer, target post pk from the URL, the form's `text`), plus
the fresh pk and the automatic `created_at` the store assigns. -/
structure CommentRequest where
  viewerPk : Nat
  postPk : Nat
  text : String
  newPk : Nat
  createdAt : Nat
deriving DecidableEq, Repr

/-- `CommentCreateView` (`blog/views.py`): `get_object_or_404(Post,
pk=kwargs['pk'])` (`none` models the 404), then insert a `Comment` with
`author = request.user` and `post_id = kwargs['pk']`.  The `Comment` model's
`save` does nothing else: the `comment_count` auto-increment is commented out
in `blog/models.py`, so no `Post` row is touched. -/
def createComment (s : Store) (r : CommentRequest) : Option Store :=
  match s.posts.find? fun p => p.pk == r.postPk with
  | none => none
  | some _ =>
    some { s with comments :=
      s.comments ++ [⟨r.newPk, r.text, r.postPk, r.createdAt, r.viewerPk⟩] }

/-- Run a sequence of comment-creation requests; a request whose post is
absent 404s and leaves the store as it was. -/
def runCommentRequests (s : Store) (rs : List CommentRequest) : Store :=
  rs.foldl (fun st r => match createComment st r with
    | none => st
    | some st2 => st2) s

/-! Helper lemmas shared by the claim theorems. -/

/-- Membership of a post in an annotated queryset is membership in the
underlying post list. -/
theorem mem_post_annotate {s : Store} {l : List Post} {p : Post} :
    (p ∈ (annotateCounts s l).map fun ap => ap.post) ↔ p ∈ l := by
  simp [annotateCounts, List.map_map, Function.comp]

/-- Membership of a post in an annotated, `'-pub_date'`-ordered, filtered
queryset is membership in the store's posts together with the row filter. -/
theorem mem_feed_iff {s : Store} {q : Post → Bool} {p : Post} :
    (p ∈ (annotateCounts s ((s.posts.filter q).insertionSort
        pubDateDesc)).map fun ap => ap.post) ↔ p ∈ s.posts ∧ q p = true := by
  rw [mem_post_annotate, List.mem_insertionSort, List.mem_filter]

/-- An annotated, `'-pub_date'`-ordered queryset is pairwise non-increasing
in `pub_date`. -/
theorem pairwise_desc_annotate (s : Store) (l : List Post) :
    List.Pairwise (fun a b : AnnotatedPost => b.post.pub_date ≤ a.post.pub_date)
      (annotateCounts s (l.insertionSort pubDateDesc)) := by
  refine List.pairwise_map.mpr ?_
  exact (List.sorted_insertionSort pubDateDesc l).imp fun h => h

/-- Inserting one comment leaves the post table of the store untouched. -/
theorem createComment_posts {s s2 : Store} {r : CommentRequest}
    (h : createComment s r = some s2) : s2.posts = s.posts := by
  unfold createComment at h
  cases hf : s.posts.find? fun p => p.pk == r.postPk with
  | none => rw [hf] at h; exact absurd h (by simp)
  | some p => rw [hf] at h; cases h; rfl

/-! Concrete stores used by counterexamples and witnesses. -/

/-- A published category, for the concrete stores. -/
def cat1 : Category := ⟨1, "Cat", "cat", true, 0⟩

/-- An unpublished category, for the concrete stores. -/
def cat2 : Category := ⟨2, "Hidden", "hid", false, 0⟩

/-- A post published under the published category whose `pub_date` equals the
query time `now = 100`. -/
def boundaryPost : Post := ⟨1, "t", "x", 100, 1, none, some 1, "", true, 0, 0⟩

/-- A store holding only `boundaryPost`. -/
def boundaryStore : Store := ⟨[⟨1, "alice"⟩], [cat1], [boundaryPost], []⟩

/-- A past-dated published post of author `alice` whose category is the
unpublished `cat2`. -/
def hiddenCatPost : Post := ⟨1, "t", "x", 50, 1, none, some 2, "", true, 0, 0⟩

/-- A store holding only `hiddenCatPost`, with both categories on file. -/
def hiddenCatStore : Store := ⟨[⟨1, "alice"⟩], [cat1, cat2], [hiddenCatPost], []⟩

/-- A post of author `alice` (pk 1) that comment pk 5 hangs off. -/
def ownedPost : Post := ⟨2, "t", "x", 50, 1, none, some 1, "", true, 0, 0⟩

/-- The comment with pk 5 on post pk 2, authored by user 1. -/
def ownedComment : Comment := ⟨5, "hi", 2, 10, 1⟩

/-- A store with author `alice` (pk 1), non-author `eve` (pk 9), the post
pk 2 and its comment pk 5. -/
def commentStore : Store :=
  ⟨[⟨1, "alice"⟩, ⟨9, "eve"⟩], [cat1], [ownedPost], [ownedComment]⟩

/-- A visible post whose stored `comment_count` is the stale value 1 while
three live comments exist. -/
def stalePost : Post := ⟨1, "t", "x", 50, 1, none, some 1, "", true, 0, 1⟩

/-- A store where `stalePost` has three live comments but a stored counter
of 1. -/
def staleStore : Store :=
  ⟨[⟨1, "alice"⟩], [cat1], [stalePost],
    [⟨1, "a", 1, 5, 1⟩, ⟨2, "b", 1, 3, 1⟩, ⟨3, "c", 1, 9, 1⟩]⟩

/-- An unpublished, future-dated (`pub_date = 999`) post with pk 7. -/
def draftPost : Post := ⟨7, "t", "x", 999, 1, none, some 1, "", false, 0, 0⟩

/-- A store holding only the unpublished future-dated `draftPost`. -/
def draftStore : Store := ⟨[⟨1, "alice"⟩], [cat1], [draftPost], []⟩

/-- C1, counterexample: the claim's inclusive boundary fails on the code.
`boundaryPost` is published under a published category and has
`pub_date = now = 100`, so the claimed predicate
`is_published ∧ pub_date ≤ now ∧ category.is_published` holds, yet the
feeds' row filter (`pub_date__lt`) rejects it and the home feed is empty. -/
theorem C1_boundary_counterexample :
    boundaryPost ∈ boundaryStore.posts ∧
    boundaryPost.is_published = true ∧
    boundaryPost.pub_date ≤ 100 ∧
    categoryPublished boundaryStore boundaryPost = true ∧
    feedFilter boundaryStore 100 boundaryPost = false ∧
    (listHome boundaryStore 100).map (fun ap => ap.post) = [] := by decide

/-- C1, amended: a post is in the public home feed iff it is stored,
`is_published` is true, its `pub_date` is strictly less than the current
time, and its category is published.  The boundary is exclusive: a post whose
`pub_date` equals `now()` is not visible. -/
theorem C1_feed_visibility_strict (s : Store) (now : Nat) (p : Post) :
    (p ∈ (listHome s now).map fun ap => ap.post) ↔
      p ∈ s.posts ∧ p.is_published = true ∧ p.pub_date < now ∧
        categoryPublished s p = true := by
  rw [listHome, mem_feed_iff, feedFilter]
  simp [Bool.and_eq_true, decide_eq_true_iff, and_assoc]

/-- C2: evaluating the comment mutation views at the failing input.  Comment
pk 5 belongs to post pk 2 and is authored by user 1; when the non-author
viewer 9 attempts to update or delete it, the store is left unchanged (no
write), but the response redirects to `blog:post_detail` with argument 5 —
the comment's own pk — instead of 2, the owning post, contradicting the
claim (and the adjacent `get_success_url`, which correctly uses `post_id`). -/
theorem C2_comment_redirect_eval :
    ownedComment ∈ commentStore.comments ∧
    ownedComment.pk = 5 ∧ ownedComment.postPk = 2 ∧
    ownedComment.authorPk ≠ 9 ∧
    updateComment commentStore 9 5 "edited"
      = (.redirectToPostDetail 5, commentStore) ∧
    deleteComment commentStore 9 5
      = (.redirectToPostDetail 5, commentStore) := by decide

/-- C3, counterexample: `hiddenCatPost` is a published, past-dated post of
author `alice` under the unpublished category `cat2`.  A non-owner viewer's
profile request for `alice` returns it, although the `visible()` predicate
(in both its spec form and the feeds' strict form) is false for it. -/
theorem C3_profile_counterexample :
    (hiddenCatPost ∈ (listProfile hiddenCatStore "bob" "alice" 100).map
        fun ap => ap.post) ∧
    visibleSpec hiddenCatStore 100 hiddenCatPost = false ∧
    feedFilter hiddenCatStore 100 hiddenCatPost = false ∧
    authorUsername hiddenCatStore hiddenCatPost = some "alice" ∧
    "bob" ≠ "alice" := by decide

/-- C3, amended: when the viewer's username equals the requested username the
profile feed is all of that author's posts with no visibility filtering;
otherwise it is that author's posts with `is_published` true and `pub_date`
strictly before now — the category-published component of `visible()` is not
applied on the profile feed. -/
theorem C3_profile_feed (s : Store) (viewer slug : String) (now : Nat)
    (p : Post) :
    ((p ∈ (listProfile s slug slug now).map fun ap => ap.post) ↔
        p ∈ s.posts ∧ authorUsername s p = some slug) ∧
    (viewer ≠ slug →
      ((p ∈ (listProfile s viewer slug now).map fun ap => ap.post) ↔
        p ∈ s.posts ∧ p.is_published = true ∧ p.pub_date < now ∧
          authorUsername s p = some slug)) := by
  constructor
  · rw [listProfile, if_pos (by simp), mem_feed_iff]
    simp
  · intro hne
    rw [listProfile, if_neg (by simpa using hne), mem_feed_iff]
    simp [Bool.and_eq_true, decide_eq_true_iff, and_assoc]

/-- C3, witness: instantiating the amended theorem's non-owner branch for the
viewer `bob` on `alice`'s profile at the concrete store. -/
theorem C3_profile_feed_witness :
    hiddenCatPost ∈ hiddenCatStore.posts ∧
    hiddenCatPost.is_published = true ∧ hiddenCatPost.pub_date < 100 ∧
    authorUsername hiddenCatStore hiddenCatPost = some "alice" :=
  ((C3_profile_feed hiddenCatStore "bob" "alice" 100 hiddenCatPost).2
    (by decide)).mp (by decide)

/-- C4: every row of the home feed displays, as its `comment_count`
annotation, the live number of `Comment` records attached to that post,
computed from the comment table alone; and at the concrete `staleStore`,
whose only post carries the stale stored counter 1 and three live comments,
the home feed displays 3. -/
theorem C4_live_comment_count :
    (∀ (s : Store) (now : Nat) (ap : AnnotatedPost), ap ∈ listHome s now →
        ap.displayedCount =
          (s.comments.filter fun c => c.postPk == ap.post.pk).length) ∧
    (listHome staleStore 100).map
        (fun ap => (ap.post.comment_count, ap.displayedCount)) = [(1, 3)] := by
  constructor
  · intro s now ap hap
    rw [listHome, annotateCounts] at hap
    obtain ⟨p, _, rfl⟩ := List.mem_map.1 hap
    rfl
  · decide

/-- C4, witness: instantiating the general part at the concrete stale-counter
store and the row the home feed actually produces. -/
theorem C4_live_comment_count_witness :
    (⟨stalePost, 3⟩ : AnnotatedPost).displayedCount =
      (staleStore.comments.filter fun c =>
        c.postPk == (⟨stalePost, 3⟩ : AnnotatedPost).post.pk).length :=
  C4_live_comment_count.1 staleStore 100 ⟨stalePost, 3⟩ (by decide)

/-- If some category `c0` with slug `slug` is on file and published, and
category slugs are unique, then any post whose category join yields `slug`
has a published category. -/
theorem categoryPublished_of_slug {s : Store} {p : Post} {slug : String}
    {c0 : Category} (hslugs : (s.categories.map fun c => c.slug).Nodup)
    (hc0mem : c0 ∈ s.categories) (hc0slug : c0.slug = slug)
    (hc0pub : c0.is_published = true)
    (h : postCategorySlug s p = some slug) : categoryPublished s p = true := by
  unfold postCategorySlug at h
  unfold categoryPublished
  cases hk : p.categoryPk with
  | none => rw [hk] at h; exact absurd h (by simp)
  | some k =>
    rw [hk] at h
    dsimp only at h ⊢
    cases hcf : findCategory s k with
    | none => rw [hcf] at h; exact absurd h (by simp)
    | some c =>
      rw [hcf] at h
      dsimp only at h ⊢
      simp only [Option.some.injEq] at h
      have hcmem : c ∈ s.categories := List.mem_of_find?_eq_some hcf
      have hcc : c = c0 :=
        List.inj_on_of_nodup_map hslugs hcmem hc0mem (by rw [h, hc0slug])
      simp only [hcc, hc0pub]

/-- C5, counterexample: the claim's "exactly the `visible()` posts" part
inherits the `visible()` boundary flaw.  In `boundaryStore` the category
`cat` is published and `boundaryPost` satisfies the spec's `visible()`
(`pub_date = now = 100`, inclusive), yet the category feed for `cat` is the
empty page, because the view filters with the strict `pub_date__lt`. -/
theorem C5_boundary_counterexample :
    listCategory boundaryStore "cat" 100 = some [] ∧
    boundaryPost ∈ boundaryStore.posts ∧
    visibleSpec boundaryStore 100 boundaryPost = true ∧
    postCategorySlug boundaryStore boundaryPost = some "cat" := by decide

/-- C5, amended: for a well-formed store, the category feed for slug `S` is
NotFound iff no published category with slug `S` is on file (no such
category, or only an unpublished one) — even when posts under it are
individually published; otherwise the returned posts are exactly the posts
passing the feeds' visibility filter (`is_published`, strict
`pub_date < now`, published category) whose category has slug `S`. -/
theorem C5_category_feed (s : Store) (hWF : s.WF) (slug : String)
    (now : Nat) :
    (listCategory s slug now = none ↔
      ∀ c ∈ s.categories, c.slug = slug → c.is_published = false) ∧
    (∀ l, listCategory s slug now = some l → ∀ p : Post,
      ((p ∈ l.map fun ap => ap.post) ↔
        p ∈ s.posts ∧ feedFilter s now p = true ∧
          postCategorySlug s p = some slug)) := by
  obtain ⟨-, -, hslugs, -, -⟩ := hWF
  constructor
  · unfold listCategory
    cases hf : s.categories.find? fun c => c.slug == slug && c.is_published with
    | none =>
      simp only [true_iff]
      intro c hc hcs
      have hnc := List.find?_eq_none.mp hf c hc
      simpa [hcs] using hnc
    | some c0 =>
      simp only [reduceCtorEq, false_iff]
      intro hall
      have h1 := List.find?_some hf
      rw [Bool.and_eq_true, beq_iff_eq] at h1
      have h2 := List.mem_of_find?_eq_some hf
      rw [hall c0 h2 h1.1] at h1
      exact absurd h1.2 (by simp)
  · intro l hl p
    unfold listCategory at hl
    cases hf : s.categories.find? fun c => c.slug == slug && c.is_published with
    | none => rw [hf] at hl; exact absurd hl (by simp)
    | some c0 =>
      rw [hf] at hl
      simp only [Option.some.injEq] at hl
      subst hl
      rw [mem_feed_iff]
      have hc0 := List.find?_some hf
      rw [Bool.and_eq_true, beq_iff_eq] at hc0
      have hc0mem := List.mem_of_find?_eq_some hf
      constructor
      · rintro ⟨hmem, hq⟩
        rw [Bool.and_eq_true, Bool.and_eq_true, beq_iff_eq] at hq
        obtain ⟨⟨hpub, hlt⟩, hslug⟩ := hq
        rw [decide_eq_true_iff] at hlt
        refine ⟨hmem, ?_, hslug⟩
        rw [feedFilter, Bool.and_eq_true, Bool.and_eq_true]
        exact ⟨⟨hpub, by rw [decide_eq_true_iff]; exact hlt⟩,
          categoryPublished_of_slug hslugs hc0mem hc0.1 hc0.2 hslug⟩
      · rintro ⟨hmem, hff, hslug⟩
        rw [feedFilter, Bool.and_eq_true, Bool.and_eq_true] at hff
        refine ⟨hmem, ?_⟩
        rw [Bool.and_eq_true, Bool.and_eq_true, beq_iff_eq]
        exact ⟨⟨hff.1.1, hff.1.2⟩, hslug⟩

/-- C5, witness: instantiating the amended theorem at the concrete store
whose category `hid` exists but is unpublished, while its post
`hiddenCatPost` is individually published: the feed is NotFound. -/
theorem C5_category_feed_witness :
    listCategory hiddenCatStore "hid" 100 = none :=
  ((C5_category_feed hiddenCatStore (by decide) "hid" 100).1).mpr (by decide)

/-- C6: for a well-formed store, `get_post` returns the post with the
requested primary key whenever one is stored — with no visibility condition:
the lookup reads neither `is_published` nor `pub_date` nor any viewer — and
returns NotFound exactly when no stored post has that pk. -/
theorem C6_get_post_by_pk (s : Store) (hWF : s.WF) (id : Nat) :
    (∀ p, p ∈ s.posts → p.pk = id → getPost s id = some p) ∧
    ((∀ p ∈ s.posts, p.pk ≠ id) → getPost s id = none) ∧
    (∀ p, getPost s id = some p → p ∈ s.posts ∧ p.pk = id) := by
  obtain ⟨-, -, -, hpks, -⟩ := hWF
  refine ⟨?_, ?_, ?_⟩
  · intro p hp hpid
    cases hf : s.posts.find? fun q => q.pk == id with
    | none =>
      have hnp := List.find?_eq_none.mp hf p hp
      simp [hpid] at hnp
    | some q =>
      have h1 := List.find?_some hf
      rw [beq_iff_eq] at h1
      have h2 := List.mem_of_find?_eq_some hf
      have hqp : q = p := List.inj_on_of_nodup_map hpks h2 hp (by rw [h1, hpid])
      rw [getPost, hf, hqp]
  · intro hall
    rw [getPost, List.find?_eq_none]
    intro p hp
    simp [hall p hp]
  · intro p h
    rw [getPost] at h
    refine ⟨List.mem_of_find?_eq_some h, ?_⟩
    have h1 := List.find?_some h
    rwa [beq_iff_eq] at h1

/-- C6, witness: the unpublished, future-dated `draftPost` (pk 7) is
returned by `get_post` at its identifier. -/
theorem C6_get_post_by_pk_witness : getPost draftStore 7 = some draftPost :=
  (C6_get_post_by_pk draftStore (by decide) 7).1 draftPost (by decide)
    (by decide)

/-- C7: for every state of the store and every post, the comment list the
detail view renders is pairwise non-decreasing in `created_at` (the
`Comment.Meta.ordering = ('created_at',)` ascending order). -/
theorem C7_comments_sorted (s : Store) (postPk : Nat) :
    List.Pairwise (fun a b : Comment => a.created_at ≤ b.created_at)
      (postComments s postPk) :=
  (List.sorted_insertionSort createdAtAsc
    (s.comments.filter fun c => c.postPk == postPk)).imp fun h => h

/-- C8, counterexample: the "all `visible()` posts" part of the claim fails
at the boundary.  `boundaryPost` satisfies the spec's inclusive `visible()`
at `now = 100`, yet the home feed is empty, because the view filters with
the strict `pub_date__lt`. -/
theorem C8_boundary_counterexample :
    boundaryPost ∈ boundaryStore.posts ∧
    visibleSpec boundaryStore 100 boundaryPost = true ∧
    (listHome boundaryStore 100).map (fun ap => ap.post) = [] := by decide

/-- C8, amended: the home feed contains exactly the posts passing the feeds'
visibility filter (strict `pub_date < now`), and is ordered by `pub_date`
descending: for any element appearing before another in the returned
sequence — consecutive elements in particular — the earlier one's `pub_date`
is at least the later one's. -/
theorem C8_home_feed (s : Store) (now : Nat) :
    (∀ p : Post, (p ∈ (listHome s now).map fun ap => ap.post) ↔
        p ∈ s.posts ∧ feedFilter s now p = true) ∧
    List.Pairwise (fun a b : AnnotatedPost => b.post.pub_date ≤ a.post.pub_date)
      (listHome s now) := by
  refine ⟨fun p => ?_, pairwise_desc_annotate s _⟩
  rw [listHome, mem_feed_iff]

/-- C9: creating comments never touches the post table — the `comment_count`
auto-increment in `Comment.save` is commented out in the source — so after
any sequence of comment-creation requests every post row, in particular its
stored `comment_count` counter, still holds its prior value. -/
theorem C9_comment_count_frame (s : Store) (rs : List CommentRequest) :
    (runCommentRequests s rs).posts = s.posts ∧
    ((runCommentRequests s rs).posts.map fun p => (p.pk, p.comment_count))
      = s.posts.map fun p => (p.pk, p.comment_count) := by
  have hposts : ∀ (rs : List CommentRequest) (s : Store),
      (runCommentRequests s rs).posts = s.posts := by
    intro rs
    induction rs with
    | nil => intro s; rfl
    | cons r rs ih =>
      intro s
      have hstep : (match createComment s r with
          | none => s
          | some st2 => st2).posts = s.posts := by
        cases h : createComment s r with
        | none => rfl
        | some st2 => exact createComment_posts h
      rw [runCommentRequests, List.foldl_cons]
      exact (ih _).trans hstep
  exact ⟨hposts rs s, by rw [hposts rs s]⟩

/-- C10: a successful post creation inserts exactly one new post; its author
is the authenticated viewer regardless of the submitted `PostFormFields`
(which, mirroring `PostForm`'s `exclude`, carry no `author`, `comment_count`
or `is_published` entry), and the excluded fields take the model defaults:
`is_published = True` and `comment_count = 0`. -/
theorem C10_create_post_fields (s : Store) (viewerPk newPk now : Nat)
    (f : PostFormFields) :
    (createPost s viewerPk newPk now f).posts
        = s.posts ++ [newPostFromForm viewerPk newPk now f] ∧
    (newPostFromForm viewerPk newPk now f).authorPk = viewerPk ∧
    (newPostFromForm viewerPk newPk now f).is_published = true ∧
    (newPostFromForm viewerPk newPk now f).comment_count = 0 :=
  ⟨rfl, rfl, rfl, rfl⟩

end Blogicum
